import Mathlib

/-!
Shallow embedding of the SEO-audit engine of this repository
(`src/word_report.py`: `perform_seo_audit` and `create_word_report`),
together with theorems settling the frozen claims about it.

External collaborators (the HTTP transport, the BeautifulSoup HTML parser,
`urllib.parse.urljoin`) are modelled as inputs: the parsed document is a
`Doc` value holding exactly the queries the audit performs on the soup, the
primary request outcome is a `FetchOutcome`, the synthetic-404 probe outcome
is an `Option Nat` (`none` models an exception, `some s` a response with
status `s`), and `urljoin` is a function parameter `uj`.
-/

namespace Seo

/-! ## Python string primitives, modelled over `List Char` -/

/-- Model of Python `s.lower()` (ASCII case folding, as `Char.toLower`). -/
def lowerS (s : String) : String :=
  String.mk (s.data.map Char.toLower)

/-- Model of Python `s.upper()`. -/
def upperS (s : String) : String :=
  String.mk (s.data.map Char.toUpper)

/-- Model of Python `s.strip()` with no arguments: remove leading and
trailing whitespace. -/
def trimWS (s : String) : String :=
  String.mk (((s.data.dropWhile Char.isWhitespace).reverse.dropWhile
    Char.isWhitespace).reverse)

/-- Model of Python `s.rstrip("/")`: remove all trailing slashes. -/
def rstripSlashes (s : String) : String :=
  String.mk ((s.data.reverse.dropWhile (· == '/')).reverse)

/-- Does the character list `s` begin with the character list `pre`? -/
def startsWithL (pre s : List Char) : Bool :=
  match pre, s with
  | [], _ => true
  | _ :: _, [] => false
  | a :: as, b :: bs => a == b && startsWithL as bs

/-- Model of Python `s.startswith(pre)`. -/
def startsWithS (s pre : String) : Bool :=
  startsWithL pre.data s.data

/-- Does `needle` occur as a contiguous sublist of `hay`? -/
def isSubL (needle : List Char) : List Char → Bool
  | [] => needle.isEmpty
  | c :: cs => startsWithL needle (c :: cs) || isSubL needle cs

/-- Model of the Python substring test `needle in hay`. -/
def containsSub (hay needle : String) : Bool :=
  isSubL needle.data hay.data

/-- Helper for whitespace splitting: `acc` holds the reversed current word. -/
def splitWSAux (acc : List Char) : List Char → List String
  | [] => if acc.isEmpty then [] else [String.mk acc.reverse]
  | c :: cs =>
    if c.isWhitespace then
      if acc.isEmpty then splitWSAux [] cs
      else String.mk acc.reverse :: splitWSAux [] cs
    else splitWSAux (c :: acc) cs

/-- Model of Python `s.split()` with no arguments: split on whitespace runs,
discarding empty pieces. -/
def splitWS (s : String) : List String :=
  splitWSAux [] s.data

/-- The punctuation characters stripped from keyword tokens by
`w.strip(".,!?:;()[]\"'")` in `perform_seo_audit` (line 68). The two
`Char.ofNat` entries are the double quote (34) and the apostrophe (39). -/
def stripSet : List Char :=
  ['.', ',', '!', '?', ':', ';', '(', ')', '[', ']',
   Char.ofNat 34, Char.ofNat 39]

/-- Model of Python `w.strip(".,!?:;()[]\"'")`: remove the characters of
`stripSet` from both ends of `w`. -/
def pyStrip (w : String) : String :=
  String.mk (((w.data.dropWhile (stripSet.contains ·)).reverse.dropWhile
    (stripSet.contains ·)).reverse)

/-- Python truthiness of an optional string attribute (`None` and `""` are
falsy). -/
def truthyOS (o : Option String) : Bool :=
  match o with
  | some s => s != ""
  | none => false

/-- Model of Python `a or b` for an optional string `a` with default `b`:
the first truthy value. -/
def pyOrS (o : Option String) (d : String) : String :=
  match o with
  | some s => if s == "" then d else s
  | none => d

/-! ## Data model of the external collaborators -/

/-- One `<meta>` element of the parsed document: its `name`, `property` and
`content` attributes (absent attributes are `none`). -/
structure MetaTag where
  name : Option String
  property : Option String
  content : Option String
deriving Repr, DecidableEq

/-- One `<img>` element: its `src`, `data-src` and `alt` attributes. -/
structure Img where
  src : Option String
  dataSrc : Option String
  alt : Option String
deriving Repr, DecidableEq

/-- One `<link>` element: its `rel` attribute (the raw attribute text) and
its `href` attribute. -/
structure Link where
  rel : Option String
  href : Option String
deriving Repr, DecidableEq

/-- The parsed document, exposing exactly the queries `perform_seo_audit`
makes of the BeautifulSoup object: the raw text of the first `<title>`
element (if any), all `<meta>` elements in document order, the raw texts of
all `<h1>` elements, all `<img>` elements, all `<link>` elements, the
`type` attribute of every `<script>` element, and the visible text as
returned by `soup.get_text(separator=" ")`. -/
structure Doc where
  title : Option String
  metas : List MetaTag
  h1s : List String
  imgs : List Img
  links : List Link
  scriptTypes : List (Option String)
  textContent : String
deriving Repr, DecidableEq

/-- A completed HTTP response: status code, body text, and final URL after
redirects (`resp.status_code`, `resp.text`, `resp.url`). -/
structure HttpResponse where
  status : Nat
  text : String
  url : String
deriving Repr, DecidableEq

/-- Outcome of the primary `requests.get`: a transport-level failure
(connection refused, timeout, DNS failure) carrying the exception message,
or a completed response (of any status). -/
inductive FetchOutcome where
  | failure (msg : String)
  | response (r : HttpResponse)
deriving Repr, DecidableEq

/-- Model of the message of the `requests.exceptions.HTTPError` raised by
`resp.raise_for_status()` for a status in 400..599. -/
def http_error_text (s : Nat) : String :=
  if s < 500 then toString s ++ " Client Error" else toString s ++ " Server Error"

/-- Does `resp.raise_for_status()` raise? It raises exactly for status codes
in 400..599. -/
def raiseForStatusFails (s : Nat) : Bool :=
  400 ≤ s && s < 600

/-! ## Signal extraction (`perform_seo_audit`, lines 27..114) -/

/-- Line 27..28: prepend `https://` when the input does not start with
`"http"`. -/
def normalize_url (url : String) : String :=
  if startsWithS url "http" then url else "https://" ++ url

/-- Lines 35..36: the stripped text of the first `<title>` element, or `""`
when there is none. -/
def titleOf (doc : Doc) : String :=
  match doc.title with
  | some t => trimWS t
  | none => ""

/-- Model of `soup.find("meta", attrs={"name": n})`: the first `<meta>`
whose `name` attribute equals `n`. -/
def findMetaByName (metas : List MetaTag) (n : String) : Option MetaTag :=
  metas.find? (fun m => m.name == some n)

/-- Lines 39..40: the stripped `content` of the first
`<meta name="description">`, or `""` when the tag or a truthy content is
absent. -/
def metaDescOf (doc : Doc) : String :=
  match findMetaByName doc.metas "description" with
  | some m =>
    match m.content with
    | some c => if c == "" then "" else trimWS c
    | none => ""
  | none => ""

/-- Line 44: stripped texts of all `<h1>` elements. -/
def h1TagsOf (doc : Doc) : List String :=
  doc.h1s.map trimWS

/-- Line 50: `img.get("src") or img.get("data-src") or ""`. -/
def effSrc (i : Img) : String :=
  pyOrS i.src (pyOrS i.dataSrc "")

/-- Model of `abs_src.split("?")[0]`: the part before the first `?`. -/
def beforeQuery (s : String) : String :=
  String.mk (s.data.takeWhile (· != '?'))

/-- Model of `os.path.splitext(p)[1]`: the extension of the basename of
`p`, empty when the basename has no dot or only leading dots before its
last dot. -/
def splitextExt (p : String) : String :=
  let base := (p.data.reverse.takeWhile (· != '/')).reverse
  let revBase := base.reverse
  let afterDot := revBase.takeWhile (· != '.')
  if afterDot.length == revBase.length then ""
  else if ((revBase.drop (afterDot.length + 1)).reverse).all (· == '.') then ""
  else String.mk ('.' :: afterDot.reverse)

/-- Model of Python `s.lstrip(".")`: remove all leading dots. -/
def lstripDots (s : String) : String :=
  String.mk (s.data.dropWhile (· == '.'))

/-- Line 56..57: the reported file type of a missing-alt image, computed
from its absolute URL. -/
def imgExt (absSrc : String) : String :=
  let e := lowerS (splitextExt (beforeQuery absSrc))
  lstripDots (if e == "" then "unknown" else e)

/-- One entry of the missing-alt list: `{"src": ..., "type": ...}`. -/
structure ImgEntry where
  src : String
  type : String
deriving Repr, DecidableEq

/-- Lines 47..57: the loop collecting images whose effective source (`src`,
else `data-src`) is non-empty and whose `alt` is absent or blank after
stripping; `uj` models `urllib.parse.urljoin` and `respUrl` is `resp.url`. -/
def missing_alt_images (uj : String → String → String) (respUrl : String) :
    List Img → List ImgEntry
  | [] => []
  | i :: rest =>
    let src := effSrc i
    if src == "" then missing_alt_images uj respUrl rest
    else
      let alt := pyOrS i.alt ""
      if trimWS alt == "" then
        let absSrc := uj respUrl src
        { src := absSrc, type := imgExt absSrc } :: missing_alt_images uj respUrl rest
      else missing_alt_images uj respUrl rest

/-- Lines 62..64: at least one `<meta>` with a `property` starting with
`og:` or a `name` starting with `twitter:`. -/
def socialPresent (doc : Doc) : Bool :=
  let og := doc.metas.filter (fun m =>
    match m.property with
    | some v => v != "" && startsWithS v "og:"
    | none => false)
  let tw := doc.metas.filter (fun m =>
    match m.name with
    | some v => v != "" && startsWithS v "twitter:"
    | none => false)
  !og.isEmpty || !tw.isEmpty

/-- Line 69..71: frequency counting into a dict; the association list keeps
Python dict insertion order (first occurrence first). -/
def bumpFreq : List (String × Nat) → String → List (String × Nat)
  | [], t => [(t, 1)]
  | (k, c) :: rest, t =>
    if k == t then (k, c + 1) :: rest else (k, c) :: bumpFreq rest t

/-- Lines 67..72: lowercase the visible text, split on whitespace, keep
tokens longer than 3 characters, strip surrounding punctuation from each
kept token, count frequencies, sort stably by descending count (Python
`sorted(..., key=count, reverse=True)` is stable) and keep the first 15. -/
def top_keywords (rawText : String) : List (String × Nat) :=
  let text := lowerS rawText
  let tokens := ((splitWS text).filter (fun w => 3 < w.length)).map pyStrip
  let freq := tokens.foldl bumpFreq []
  (freq.insertionSort (fun a b => b.2 ≤ a.2)).take 15

/-- One entry of the `Keywords Usage` list. -/
structure Usage where
  keyword : String
  count : Nat
  in_title : Bool
  in_meta : Bool
deriving Repr, DecidableEq

/-- Lines 75..79: for the first 10 top keywords, whether each occurs in the
lowercased title and meta description. -/
def keywords_usage (topk : List (String × Nat)) (title metaDesc : String) :
    List Usage :=
  (topk.take 10).map (fun kc =>
    { keyword := kc.1, count := kc.2,
      in_title := containsSub (lowerS title) kc.1,
      in_meta := containsSub (lowerS metaDesc) kc.1 })

/-- Line 82: literal substring checks on the raw response body. -/
def analyticsPresent (body : String) : Bool :=
  containsSub body "gtag(" || containsSub body "google-analytics.com" ||
    containsSub body "analytics.js"

/-- Line 85: the first `<link>` whose `rel` contains `icon`
case-insensitively. -/
def faviconTagOf (doc : Doc) : Option Link :=
  doc.links.find? (fun l =>
    match l.rel with
    | some v => v != "" && containsSub (lowerS v) "icon"
    | none => false)

/-- Lines 85..86: a favicon link exists and has a truthy `href` or `rel`. -/
def faviconPresent (doc : Doc) : Bool :=
  match faviconTagOf doc with
  | some l => truthyOS l.href || truthyOS l.rel
  | none => false

/-- Lines 89..90: a `<meta name="google-site-verification">` with truthy
content. -/
def gscPresent (doc : Doc) : Bool :=
  match findMetaByName doc.metas "google-site-verification" with
  | some m => truthyOS m.content
  | none => false

/-- Lines 100..101: the number of `<script type="application/ld+json">`
elements. -/
def structuredCount (doc : Doc) : Nat :=
  (doc.scriptTypes.filter (fun t => t == some "application/ld+json")).length

/-- Lines 104..108: the custom-404 probe result; `none` models an exception
during the probe (degraded to `false`), `some s` a response of status `s`,
and the page is deemed to have a custom 404 exactly when `s` is 404. -/
def custom404Of (probe : Option Nat) : Bool :=
  match probe with
  | some s => s == 404
  | none => false

/-- Lines 111..112: the lowercased content of `<meta name="robots">`, or
`""` when the tag or a truthy content is absent. -/
def robots_content_of (doc : Doc) : String :=
  match findMetaByName doc.metas "robots" with
  | some m =>
    match m.content with
    | some c => if c == "" then "" else lowerS c
    | none => ""
  | none => ""

/-- Line 113: `"noindex" in robots_content`. -/
def noindexOf (doc : Doc) : Bool :=
  containsSub (robots_content_of doc) "noindex"

/-- Line 114: `"nofollow" in robots_content`. -/
def nofollowOf (doc : Doc) : Bool :=
  containsSub (robots_content_of doc) "nofollow"

/-! ## The audit result dictionary -/

/-- The values stored in the audit result dictionary. -/
inductive Value where
  | str (s : String)
  | nat (n : Nat)
  | bool (b : Bool)
  | strList (l : List String)
  | imgList (l : List ImgEntry)
  | kwList (l : List (String × Nat))
  | usageList (l : List Usage)
deriving Repr, DecidableEq

/-- Lines 35..140: the body of `perform_seo_audit` after a successful
primary fetch, assembling the result dictionary (modelled as an association
list in insertion order); `url` is the already-normalized input URL. -/
def audit_success (uj : String → String → String) (url : String)
    (resp : HttpResponse) (doc : Doc) (probe404 : Option Nat) :
    List (String × Value) :=
  let title := titleOf doc
  let title_len := title.length
  let meta_desc := metaDescOf doc
  let meta_desc_len := meta_desc.length
  let h1_tags := h1TagsOf doc
  let missing := missing_alt_images uj resp.url doc.imgs
  let total_images := doc.imgs.length
  let social := socialPresent doc
  let topk := top_keywords doc.textContent
  let usage := keywords_usage topk title meta_desc
  let analytics := analyticsPresent resp.text
  let favicon := faviconPresent doc
  let gsc := gscPresent doc
  let final_url := resp.url
  let redirected := rstripSlashes final_url != rstripSlashes url
  let https_used := startsWithS final_url "https://"
  let structured := structuredCount doc > 0
  let custom404 := custom404Of probe404
  let noindex := noindexOf doc
  let nofollow := nofollowOf doc
  [("URL", .str url),
   ("Final URL", .str final_url),
   ("Redirected", .bool redirected),
   ("Title", .str (if title == "" then "❌ Missing" else title)),
   ("Title Length", .nat title_len),
   ("Meta Description", .str (if meta_desc == "" then "❌ Missing" else meta_desc)),
   ("Meta Description Length", .nat meta_desc_len),
   ("H1 Headings", .strList (if h1_tags.isEmpty then ["❌ Missing"] else h1_tags)),
   ("Missing Alt Images", .imgList missing),
   ("Total Images", .nat total_images),
   ("Social Meta Tags", .str (if social then "✅ Present" else "❌ Missing")),
   ("Top Keywords", .kwList topk),
   ("Keywords Usage", .usageList usage),
   ("Google Analytics", .str (if analytics then "✅ Found" else "❌ Missing")),
   ("Favicon", .str (if favicon then "✅ Present" else "❌ Missing")),
   ("Google Search Console", .str (if gsc then "✅ Verified" else "❌ Missing")),
   ("HTTPS", .str (if https_used then "✅ Secure" else "❌ Not Secure")),
   ("Structured Data", .str (if structured then "✅ Found" else "❌ Missing")),
   ("Custom 404 Page", .str (if custom404 then "✅ Exists" else "❌ Not Found")),
   ("Noindex Tag", .str (if noindex then "✅ Present" else "❌ Not Present")),
   ("Nofollow Tag", .str (if nofollow then "✅ Present" else "❌ Not Present"))]

/-- Lines 24..143: `perform_seo_audit`. The URL is normalized, then the
primary fetch outcome is examined: a transport failure, or an HTTP error
status raised by `raise_for_status()`, is caught by the
`requests.exceptions.RequestException` handler and yields the error-only
dictionary; otherwise the checks run on the parsed document. -/
def perform_seo_audit (uj : String → String → String) (url0 : String)
    (primary : FetchOutcome) (doc : Doc) (probe404 : Option Nat) :
    List (String × Value) :=
  let url := normalize_url url0
  match primary with
  | .failure e => [("Error", .str ("Could not access the website: " ++ e))]
  | .response resp =>
    if raiseForStatusFails resp.status then
      [("Error", .str ("Could not access the website: " ++ http_error_text resp.status))]
    else audit_success uj url resp doc probe404

/-! ## The Word report (`create_word_report`, lines 230..424), modelled as
an abstract sequence of document items -/

/-- One item appended to the Word document: a heading with its level, a
paragraph, an inserted picture, or one table row given by its cell texts. -/
inductive DocItem where
  | heading (level : Nat) (text : String)
  | para (text : String)
  | picture
  | row (cells : List String)
deriving Repr, DecidableEq

/-- Model of `audit_data.get(k)`: the value at the first occurrence of key
`k`, or `none`. -/
def dget (d : List (String × Value)) (k : String) : Option Value :=
  (d.find? (fun p => p.1 == k)).map Prod.snd

/-- Python truthiness of a dictionary value. -/
def pyTruthy : Value → Bool
  | .str s => s != ""
  | .nat n => n != 0
  | .bool b => b
  | .strList l => !l.isEmpty
  | .imgList l => !l.isEmpty
  | .kwList l => !l.isEmpty
  | .usageList l => !l.isEmpty

/-- Python truthiness of `audit_data.get(k)` (missing key is falsy). -/
def pyTruthyO : Option Value → Bool
  | some v => pyTruthy v
  | none => false

/-- Rendering of a value interpolated into document text (in the report all
such values are strings or integers). -/
def vShow : Value → String
  | .str s => s
  | .nat n => toString n
  | .bool b => if b then "True" else "False"
  | v => reprStr v

/-- Model of `audit_data.get(k, dflt)` used as text. -/
def getStrD (d : List (String × Value)) (k : String) (dflt : String) : String :=
  match dget d k with
  | some v => vShow v
  | none => dflt

/-- Model of `audit_data.get(k, dflt)` used as an integer. -/
def getNatD (d : List (String × Value)) (k : String) (dflt : Nat) : Nat :=
  match dget d k with
  | some (.nat n) => n
  | _ => dflt

/-- Model of `audit_data.get(k, [])` for the missing-alt list. -/
def getImgsD (d : List (String × Value)) (k : String) : List ImgEntry :=
  match dget d k with
  | some (.imgList l) => l
  | _ => []

/-- Model of `audit_data.get(k, [])` for the keyword list. -/
def getKwD (d : List (String × Value)) (k : String) : List (String × Nat) :=
  match dget d k with
  | some (.kwList l) => l
  | _ => []

/-- Model of `audit_data.get(k, [])` for the usage list. -/
def getUsageD (d : List (String × Value)) (k : String) : List Usage :=
  match dget d k with
  | some (.usageList l) => l
  | _ => []

/-- Model of `_ai_suggestion_text` (lines 192..227): the optional AI client
is a function from section name and value to the produced text; without a
client (or when every call pattern fails, modelled by the function itself
returning `""`) the result is the empty string. -/
def ai_suggestion_text (ai : Option (String → String → String))
    (sectionName value : String) : String :=
  match ai with
  | some f => f sectionName value
  | none => ""

/-- Lines 274..282: the Issue cell of the Meta Title table. -/
def title_issue (d : List (String × Value)) : String :=
  let title_len := getNatD d "Title Length" 0
  if !pyTruthyO (dget d "Title") || dget d "Title" == some (.str "❌ Missing") then
    "❌ Missing title tag."
  else if title_len < 50 then "⚠️ Title is too short (<50 chars)."
  else if title_len > 70 then "⚠️ Title is long (>70 chars)."
  else "✅ Looks good."

/-- Lines 303..312: the Issue cell of the Meta Description table. -/
def md_issue (d : List (String × Value)) : String :=
  let md_len := getNatD d "Meta Description Length" 0
  let md_val := getStrD d "Meta Description" ""
  if md_val == "" || md_val == "❌ Missing" then "❌ Missing meta description."
  else if md_len < 120 then "⚠️ Description is short (<120 chars)."
  else if md_len > 320 then "⚠️ Description is long (>320 chars)."
  else "✅ Looks good."

/-- The status column of an advanced-checks row: `audit_data.get(k, "")`. -/
def adv_status (d : List (String × Value)) (k : String) : String :=
  getStrD d k ""

/-- Issue text of a normal presence check: flagged when the status starts
with the cross mark, `"OK"` otherwise. -/
def flag_if_missing (status issueText : String) : String :=
  if startsWithS status "❌" then issueText else "OK"

/-- Issue text of the two inverted checks (lines 407..412): flagged when
the status starts with the check mark, `"OK"` otherwise. -/
def flag_if_present (status issueText : String) : String :=
  if startsWithS status "✅" then issueText else "OK"

/-- Line 383..385. -/
def social_issue (d : List (String × Value)) : String :=
  flag_if_missing (adv_status d "Social Meta Tags")
    "Missing OpenGraph / Twitter tags affects social previews."

/-- Line 386..388. -/
def analytics_issue (d : List (String × Value)) : String :=
  flag_if_missing (adv_status d "Google Analytics")
    "Analytics not found — cannot track user behaviour."

/-- Line 389..391. -/
def favicon_issue (d : List (String × Value)) : String :=
  flag_if_missing (adv_status d "Favicon") "No favicon present."

/-- Line 392..394. -/
def gsc_issue (d : List (String × Value)) : String :=
  flag_if_missing (adv_status d "Google Search Console") "Site not verified in GSC."

/-- Line 398..400. -/
def https_issue (d : List (String × Value)) : String :=
  flag_if_missing (adv_status d "HTTPS") "Site not fully HTTPS / SSL issues."

/-- Line 401..403. -/
def structured_issue (d : List (String × Value)) : String :=
  flag_if_missing (adv_status d "Structured Data") "No structured data found."

/-- Line 404..406. -/
def custom404_issue (d : List (String × Value)) : String :=
  flag_if_missing (adv_status d "Custom 404 Page") "No custom 404 found."

/-- Lines 407..409: the Noindex row flags an issue when the tag is
present. -/
def noindex_issue (d : List (String × Value)) : String :=
  flag_if_present (adv_status d "Noindex Tag")
    "Noindex present — page is hidden from search engines."

/-- Lines 410..412: the Nofollow row flags an issue when the tag is
present. -/
def nofollow_issue (d : List (String × Value)) : String :=
  flag_if_present (adv_status d "Nofollow Tag")
    "Nofollow present — external links will not pass link equity."

/-- The usage column of one keyword row (lines 356..362). -/
def kw_usage_text (usageL : List Usage) (kw : String) : String :=
  match usageL.find? (fun x => x.keyword == kw) with
  | some x =>
    (if x.in_title then "Title" else "") ++
    (if x.in_title && x.in_meta then " / " else "") ++
    (if x.in_meta then "Meta" else "")
  | none => ""

/-- Lines 230..424: `create_word_report`, producing the sequence of items
added to the document. `screenshot` models whether screenshot bytes were
supplied; `ai` models the optional AI client. On a report carrying the
`Error` key the function emits the error section and returns early. -/
def create_word_report (audit_data : List (String × Value))
    (screenshot : Bool) (ai : Option (String → String → String)) :
    List DocItem :=
  let header : List DocItem :=
    [.heading 0 "SEO Audit Report",
     .para ("URL: " ++ getStrD audit_data "URL" "N/A"),
     .para ("Analyzed URL (final): " ++ getStrD audit_data "Final URL" "")]
  let shot : List DocItem :=
    if screenshot then [.heading 1 "Website Preview", .picture]
    else [.para "Note: Screenshot was not captured (Selenium may not be available or it failed)."]
  if (audit_data.map Prod.fst).contains "Error" then
    header ++ shot ++
      [.heading 1 "Error", .para (getStrD audit_data "Error" "")]
  else
    let titleSection : List DocItem :=
      [.heading 1 "Meta Title Audit",
       .row ["Title", getStrD audit_data "Title" ""],
       .row ["Length", toString (getNatD audit_data "Title Length" 0)],
       .row ["Issue", title_issue audit_data],
       .row ["Recommendation",
         "Keep title ~50-60 chars, include primary keyword, and make unique per page."]]
    let aiTitle : List DocItem :=
      if ai.isSome && pyTruthyO (dget audit_data "Title") then
        let t := ai_suggestion_text ai "Meta Title" (getStrD audit_data "Title" "")
        if t == "" then []
        else [.para "", .heading 2 "AI - Title Analysis", .para t]
      else []
    let md_val := getStrD audit_data "Meta Description" ""
    let mdSection : List DocItem :=
      [.heading 1 "Meta Description Audit",
       .row ["Meta Description", md_val],
       .row ["Length", toString (getNatD audit_data "Meta Description Length" 0)],
       .row ["Issue", md_issue audit_data],
       .row ["Recommendation",
         "Keep description 140-160 chars where possible; be compelling and include keywords."]]
    let aiMd : List DocItem :=
      if ai.isSome && md_val != "" && md_val != "❌ Missing" then
        let t := ai_suggestion_text ai "Meta Description" md_val
        if t == "" then []
        else [.para "", .heading 2 "AI - Meta Description Analysis", .para t]
      else []
    let missing := getImgsD audit_data "Missing Alt Images"
    let altSection : List DocItem :=
      [.heading 1 "Missing Image ALT Text"] ++
      (if !missing.isEmpty then
        [.para ("Found " ++ toString missing.length ++
           " images missing alt text. See list below:"),
         .row ["Image URL / Path", "File Type", "Recommendation"]] ++
        missing.map (fun i =>
          .row [i.src, upperS i.type,
            "Add descriptive alt text (describe the image, include keyword if relevant)."])
      else [.para "✅ No images missing alt text were detected."])
    let topk := (getKwD audit_data "Top Keywords").take 15
    let usageL := getUsageD audit_data "Keywords Usage"
    let kwSection : List DocItem :=
      [.heading 1 "Keywords — Top Terms & Usage"] ++
      (if !topk.isEmpty then
        [.row ["Keyword", "Frequency", "In Title / Meta"]] ++
        topk.map (fun kc =>
          let usage := kw_usage_text usageL kc.1
          .row [kc.1, toString kc.2, if usage == "" then "-" else usage])
      else [.para "No significant keywords found."])
    let advSection : List DocItem :=
      [.heading 1 "Advanced SEO Checks",
       .row ["Check", "Status", "Issue", "Recommendation"],
       .row ["Social Media Meta Tags Test", adv_status audit_data "Social Meta Tags",
         social_issue audit_data,
         "Add og:title, og:description, og:image, twitter:card, etc."],
       .row ["Google Analytics Test", adv_status audit_data "Google Analytics",
         analytics_issue audit_data,
         "Install Google Analytics (gtag.js) or GA4."],
       .row ["Favicon Test", adv_status audit_data "Favicon",
         favicon_issue audit_data,
         "Add favicon.ico or link rel icon entries."],
       .row ["Google Search Console Test", adv_status audit_data "Google Search Console",
         gsc_issue audit_data,
         "Verify site in Google Search Console and submit sitemap."],
       .row ["URL Redirects Test",
         if pyTruthyO (dget audit_data "Redirected") then "Redirected" else "No Redirect",
         if !pyTruthyO (dget audit_data "Redirected") then
           "No canonical redirect to preferred domain." else "OK",
         "Ensure all variants redirect to canonical (www / non-www / http -> https)."],
       .row ["SSL Checker and HTTPS Test", adv_status audit_data "HTTPS",
         https_issue audit_data,
         "Install valid SSL certificate and force HTTPS."],
       .row ["Structured Data Test", adv_status audit_data "Structured Data",
         structured_issue audit_data,
         "Add JSON-LD schema markup for Organization, Breadcrumb, Website, Articles etc."],
       .row ["Custom 404 Error Page Test", adv_status audit_data "Custom 404 Page",
         custom404_issue audit_data,
         "Create a helpful branded 404 page that returns 404 status."],
       .row ["Noindex Tag Test", adv_status audit_data "Noindex Tag",
         noindex_issue audit_data,
         "Remove noindex from pages that should be indexed."],
       .row ["Nofollow Tag Test", adv_status audit_data "Nofollow Tag",
         nofollow_issue audit_data,
         "Use nofollow sparingly only where necessary."]]
    header ++ shot ++ titleSection ++ aiTitle ++ mdSection ++ aiMd ++
      altSection ++ kwSection ++ advSection ++ [.para "\nEnd of report."]

/-- The headings of the per-check sections of a successful report. -/
def checkSectionHeadings : List String :=
  ["Meta Title Audit", "Meta Description Audit", "Missing Image ALT Text",
   "Keywords — Top Terms & Usage", "Advanced SEO Checks"]

/-- The fixed key sequence of every successful audit result. -/
def auditKeys : List String :=
  ["URL", "Final URL", "Redirected", "Title", "Title Length",
   "Meta Description", "Meta Description Length", "H1 Headings",
   "Missing Alt Images", "Total Images", "Social Meta Tags", "Top Keywords",
   "Keywords Usage", "Google Analytics", "Favicon", "Google Search Console",
   "HTTPS", "Structured Data", "Custom 404 Page", "Noindex Tag",
   "Nofollow Tag"]

/-! ## Concrete sample inputs for witnesses and counterexamples -/

/-- A concrete stand-in for `urllib.parse.urljoin` used in closed
statements. -/
def uj0 : String → String → String := fun _ s => s

/-- The empty parsed document. -/
def doc0 : Doc :=
  { title := none, metas := [], h1s := [], imgs := [], links := [],
    scriptTypes := [], textContent := "" }

/-- A successful response for the primary fetch. -/
def resp200 : HttpResponse :=
  { status := 200, text := "", url := "https://example.com/" }

/-- A not-found response for the primary fetch. -/
def resp404 : HttpResponse :=
  { status := 404, text := "", url := "https://example.com/" }

/-- A document whose title text has exactly 49 characters. -/
def doc49 : Doc :=
  { doc0 with title := some "aaaaaaaaaaaaaaaaaaaaaaaaaaaaaaaaaaaaaaaaaaaaaaaaa" }

/-- A document whose title text is literally the sentinel string. -/
def docSentinelTitle : Doc :=
  { doc0 with title := some "❌ Missing" }

/-- An image with no `src` attribute but a `data-src` attribute and no
`alt`. -/
def imgDS : Img := { src := none, dataSrc := some "pic.png", alt := none }

/-! ## Helper lemmas -/

/-- When `raise_for_status` does not raise, the audit runs its body on the
normalized URL. -/
theorem perform_seo_audit_ok (uj : String → String → String) (url0 : String)
    (resp : HttpResponse) (doc : Doc) (o : Option Nat)
    (h : raiseForStatusFails resp.status = false) :
    perform_seo_audit uj url0 (.response resp) doc o =
      audit_success uj (normalize_url url0) resp doc o := by
  simp [perform_seo_audit, h]

theorem audit_success_keys (uj : String → String → String) (url : String)
    (resp : HttpResponse) (doc : Doc) (o : Option Nat) :
    (audit_success uj url resp doc o).map Prod.fst = auditKeys := rfl

theorem dget_title (uj : String → String → String) (url : String)
    (resp : HttpResponse) (doc : Doc) (o : Option Nat) :
    dget (audit_success uj url resp doc o) "Title" =
      some (.str (if titleOf doc == "" then "❌ Missing" else titleOf doc)) := rfl

theorem getNat_title_len (uj : String → String → String) (url : String)
    (resp : HttpResponse) (doc : Doc) (o : Option Nat) :
    getNatD (audit_success uj url resp doc o) "Title Length" 0 =
      (titleOf doc).length := rfl

theorem dget_title_len (uj : String → String → String) (url : String)
    (resp : HttpResponse) (doc : Doc) (o : Option Nat) :
    dget (audit_success uj url resp doc o) "Title Length" =
      some (.nat (titleOf doc).length) := rfl

theorem getStr_md (uj : String → String → String) (url : String)
    (resp : HttpResponse) (doc : Doc) (o : Option Nat) :
    getStrD (audit_success uj url resp doc o) "Meta Description" "" =
      (if metaDescOf doc == "" then "❌ Missing" else metaDescOf doc) := rfl

theorem getNat_md_len (uj : String → String → String) (url : String)
    (resp : HttpResponse) (doc : Doc) (o : Option Nat) :
    getNatD (audit_success uj url resp doc o) "Meta Description Length" 0 =
      (metaDescOf doc).length := rfl

theorem dget_custom404 (uj : String → String → String) (url : String)
    (resp : HttpResponse) (doc : Doc) (o : Option Nat) :
    dget (audit_success uj url resp doc o) "Custom 404 Page" =
      some (.str (if custom404Of o then "✅ Exists" else "❌ Not Found")) := rfl

theorem adv_noindex (uj : String → String → String) (url : String)
    (resp : HttpResponse) (doc : Doc) (o : Option Nat) :
    adv_status (audit_success uj url resp doc o) "Noindex Tag" =
      (if noindexOf doc then "✅ Present" else "❌ Not Present") := rfl

theorem adv_nofollow (uj : String → String → String) (url : String)
    (resp : HttpResponse) (doc : Doc) (o : Option Nat) :
    adv_status (audit_success uj url resp doc o) "Nofollow Tag" =
      (if nofollowOf doc then "✅ Present" else "❌ Not Present") := rfl

theorem adv_favicon (uj : String → String → String) (url : String)
    (resp : HttpResponse) (doc : Doc) (o : Option Nat) :
    adv_status (audit_success uj url resp doc o) "Favicon" =
      (if faviconPresent doc then "✅ Present" else "❌ Missing") := rfl

theorem adv_analytics (uj : String → String → String) (url : String)
    (resp : HttpResponse) (doc : Doc) (o : Option Nat) :
    adv_status (audit_success uj url resp doc o) "Google Analytics" =
      (if analyticsPresent resp.text then "✅ Found" else "❌ Missing") := rfl

theorem adv_social (uj : String → String → String) (url : String)
    (resp : HttpResponse) (doc : Doc) (o : Option Nat) :
    adv_status (audit_success uj url resp doc o) "Social Meta Tags" =
      (if socialPresent doc then "✅ Present" else "❌ Missing") := rfl

theorem adv_gsc (uj : String → String → String) (url : String)
    (resp : HttpResponse) (doc : Doc) (o : Option Nat) :
    adv_status (audit_success uj url resp doc o) "Google Search Console" =
      (if gscPresent doc then "✅ Verified" else "❌ Missing") := rfl

theorem adv_https (uj : String → String → String) (url : String)
    (resp : HttpResponse) (doc : Doc) (o : Option Nat) :
    adv_status (audit_success uj url resp doc o) "HTTPS" =
      (if startsWithS resp.url "https://" then "✅ Secure" else "❌ Not Secure") := rfl

theorem adv_structured (uj : String → String → String) (url : String)
    (resp : HttpResponse) (doc : Doc) (o : Option Nat) :
    adv_status (audit_success uj url resp doc o) "Structured Data" =
      (if structuredCount doc > 0 then "✅ Found" else "❌ Missing") := rfl

theorem adv_custom404 (uj : String → String → String) (url : String)
    (resp : HttpResponse) (doc : Doc) (o : Option Nat) :
    adv_status (audit_success uj url resp doc o) "Custom 404 Page" =
      (if custom404Of o then "✅ Exists" else "❌ Not Found") := rfl

theorem custom404Of_eq_true_iff (o : Option Nat) :
    custom404Of o = true ↔ o = some 404 := by
  cases o with
  | none => simp [custom404Of]
  | some s => simp [custom404Of]

theorem err_msg_ne_empty (e : String) :
    ("Could not access the website: " ++ e) ≠ "" := by
  intro h
  have h2 := congrArg String.length h
  rw [String.length_append] at h2
  have h3 : ("Could not access the website: " : String).length = 30 := rfl
  have h4 : ("" : String).length = 0 := rfl
  omega

theorem mem_bumpFreq (acc : List (String × Nat)) (t : String) :
    ∀ p ∈ bumpFreq acc t, p.1 = t ∨ p.1 ∈ acc.map Prod.fst := by
  induction acc with
  | nil =>
    intro p hp
    simp [bumpFreq] at hp
    subst hp
    exact Or.inl rfl
  | cons kc rest ih =>
    intro p hp
    obtain ⟨k, c⟩ := kc
    by_cases hkt : k = t
    · subst hkt
      simp [bumpFreq] at hp
      rcases hp with hp | hp
      · subst hp; exact Or.inl rfl
      · exact Or.inr (by simp [List.mem_map]; right; exact ⟨p.2, by simpa using hp⟩)
    · have hb : (k == t) = false := by simp [hkt]
      simp [bumpFreq, hb] at hp
      rcases hp with hp | hp
      · subst hp; exact Or.inr (by simp)
      · rcases ih p hp with h | h
        · exact Or.inl h
        · exact Or.inr (by simp [List.mem_cons]; right; simpa using h)

theorem foldl_bumpFreq_keys (ts : List String) :
    ∀ (acc : List (String × Nat)) (p : String × Nat),
      p ∈ ts.foldl bumpFreq acc → p.1 ∈ acc.map Prod.fst ∨ p.1 ∈ ts := by
  induction ts with
  | nil =>
    intro acc p hp
    simp only [List.foldl] at hp
    exact Or.inl (List.mem_map_of_mem Prod.fst hp)
  | cons t ts ih =>
    intro acc p hp
    simp only [List.foldl] at hp
    rcases ih (bumpFreq acc t) p hp with h | h
    · obtain ⟨q, hq, hq2⟩ := List.mem_map.mp h
      rcases mem_bumpFreq acc t q hq with h2 | h2
      · exact Or.inr (by simp [← hq2, h2])
      · exact Or.inl (by rw [← hq2]; exact h2)
    · exact Or.inr (List.mem_cons_of_mem t h)

/-! ## Claim C1 -/

/-- C1 counterexample: a primary GET answered with HTTP status 404 (not a
transport-level failure) does not produce a valid result recording the
status code; `raise_for_status` turns it into a `RequestException` and the
audit returns the error-only dictionary. -/
theorem c1_counterexample :
    perform_seo_audit uj0 "example.com" (.response resp404) doc0 none =
      [("Error", Value.str "Could not access the website: 404 Client Error")] := rfl

/-- C1 (amended): a response whose status is in 400..599 makes the primary
fetch an error — the audit returns the single-key error dictionary — while
a response with any other status yields the fixed 21-key result (which
contains no status-code field); a transport-level failure also yields the
error dictionary. -/
theorem c1_amended (uj : String → String → String) (url : String)
    (resp : HttpResponse) (doc : Doc) (o : Option Nat) (e : String) :
    (raiseForStatusFails resp.status = true →
      (perform_seo_audit uj url (.response resp) doc o).map Prod.fst = ["Error"]) ∧
    (raiseForStatusFails resp.status = false →
      (perform_seo_audit uj url (.response resp) doc o).map Prod.fst = auditKeys) ∧
    (perform_seo_audit uj url (.failure e) doc o).map Prod.fst = ["Error"] := by
  refine ⟨fun h => ?_, fun h => ?_, rfl⟩
  · simp [perform_seo_audit, h]
  · rw [perform_seo_audit_ok uj url resp doc o h]
    exact audit_success_keys uj (normalize_url url) resp doc o

/-- C1 witness: the amended statement instantiated at a 404 response and at
a 200 response. -/
theorem c1_witness :
    (raiseForStatusFails resp404.status = true ∧
      (perform_seo_audit uj0 "example.com" (.response resp404) doc0 none).map
        Prod.fst = ["Error"]) ∧
    (raiseForStatusFails resp200.status = false ∧
      (perform_seo_audit uj0 "example.com" (.response resp200) doc0 none).map
        Prod.fst = auditKeys) :=
  ⟨⟨by decide,
    (c1_amended uj0 "example.com" resp404 doc0 none "").1 (by decide)⟩,
   ⟨by decide,
    (c1_amended uj0 "example.com" resp200 doc0 none "").2.1 (by decide)⟩⟩

/-! ## Claim C4 -/

/-- C4 counterexample: an image with no `src` attribute is not skipped when
it has a `data-src` attribute — with blank alt it is reported in the
missing-alt list. -/
theorem c4_counterexample :
    imgDS.src = none ∧
    (missing_alt_images uj0 "https://e.com/" [imgDS]).length = 1 :=
  ⟨rfl, rfl⟩

/-- C4 (amended): an image contributes exactly one entry to the missing-alt
list when its effective source (`src`, falling back to `data-src`, empty
attributes counting as absent) is non-empty and its `alt` is absent or
blank after trimming; all other images — including those whose only
populated source attribute is empty — contribute nothing. -/
theorem c4_amended (uj : String → String → String) (base : String)
    (imgs : List Img) :
    missing_alt_images uj base imgs =
      (imgs.filter (fun i => effSrc i != "" && trimWS (pyOrS i.alt "") == "")).map
        (fun i => { src := uj base (effSrc i), type := imgExt (uj base (effSrc i)) }) := by
  induction imgs with
  | nil => rfl
  | cons i rest ih =>
    by_cases h1 : effSrc i = ""
    · simp [missing_alt_images, h1, ih]
    · by_cases h2 : trimWS (pyOrS i.alt "") = ""
      · simp [missing_alt_images, h1, h2, ih]
      · simp [missing_alt_images, h1, h2, ih]

/-! ## Claim C5 -/

/-- C5 counterexample: the length filter runs before punctuation stripping,
so a ranked keyword can have length at most 3 — the token `o!!!` (length 4)
survives the filter and is then stripped to `o` (length 1), which tops the
ranking. -/
theorem c5_counterexample :
    ("o", 3) ∈ top_keywords "o!!! o!!! o!!! word word" ∧
    ¬ 3 < ("o" : String).length := by decide

/-- C5 (amended): the ranked list keeps at most 15 entries, and every
ranked keyword is the punctuation-strip of some whitespace token of the
lowercased visible text whose UNstripped length exceeds 3 — the length
filter precedes stripping, so the reported keyword itself may be 3
characters or shorter (even empty). -/
theorem c5_amended (text : String) :
    (top_keywords text).length ≤ 15 ∧
    ∀ kw c, (kw, c) ∈ top_keywords text →
      ∃ w, w ∈ splitWS (lowerS text) ∧ 3 < w.length ∧ kw = pyStrip w := by
  constructor
  · exact List.length_take_le _ _
  · intro kw c hmem
    simp only [top_keywords] at hmem
    have h1 : (kw, c) ∈
        ((((splitWS (lowerS text)).filter (fun w => 3 < w.length)).map
          pyStrip).foldl bumpFreq []) := by
      have h0 := List.mem_of_mem_take hmem
      exact (List.mem_insertionSort _).mp h0
    have h2 := foldl_bumpFreq_keys _ [] (kw, c) h1
    simp only [List.map_nil, List.not_mem_nil, false_or] at h2
    obtain ⟨w, hw, hws⟩ := List.mem_map.mp h2
    obtain ⟨hwmem, hwlen⟩ := List.mem_filter.mp hw
    exact ⟨w, hwmem, by simpa using hwlen, hws.symm⟩

/-- C5 witness: the amended statement instantiated on a concrete text, with
the membership hypothesis discharged by evaluation. -/
theorem c5_witness :
    (("word", 2) ∈ top_keywords "o!!! o!!! o!!! word word") ∧
    (∃ w, w ∈ splitWS (lowerS "o!!! o!!! o!!! word word") ∧ 3 < w.length ∧
      ("word" : String) = pyStrip w) :=
  ⟨by decide,
   (c5_amended "o!!! o!!! o!!! word word").2 "word" 2 (by decide)⟩

/-! ## Claim C8 -/

/-- Modelled from the spec: the phrase "prepends `https://` if no scheme
present" — a URL string carries a scheme when a nonempty run of letters is
followed by a colon. This definition follows the spec wording and is
compared against `normalize_url`, which is translated from the code. -/
def hasSchemeSpec (s : String) : Bool :=
  let pre := s.data.takeWhile (· != ':')
  !pre.isEmpty && pre.length < s.data.length && pre.all Char.isAlpha

/-- C8 counterexample: `ftp://example.com` carries a scheme yet the fetcher
prepends `https://` to it, and `httpfoo.com` carries no scheme yet is left
unchanged — the code tests `startswith("http")`, not scheme presence. -/
theorem c8_counterexample :
    (hasSchemeSpec "ftp://example.com" = true ∧
      normalize_url "ftp://example.com" = "https://ftp://example.com") ∧
    (hasSchemeSpec "httpfoo.com" = false ∧
      normalize_url "httpfoo.com" = "httpfoo.com") := by decide

/-- C8 (amended): the fetcher prepends `https://` to the input if and only
if the input does not start with the literal prefix `http`; any input
starting with `http` (scheme or not) is fetched unchanged. -/
theorem c8_amended (u : String) :
    (startsWithS u "http" = true → normalize_url u = u) ∧
    (startsWithS u "http" = false → normalize_url u = "https://" ++ u) := by
  constructor <;> intro h <;> simp [normalize_url, h]

/-- C8 witness: the amended statement instantiated at an `http`-led input
and at a scheme-carrying input not starting with `http`. -/
theorem c8_witness :
    (startsWithS "http://x.com" "http" = true ∧
      normalize_url "http://x.com" = "http://x.com") ∧
    (startsWithS "ftp://x.com" "http" = false ∧
      normalize_url "ftp://x.com" = "https://ftp://x.com") :=
  ⟨⟨by decide, (c8_amended "http://x.com").1 (by decide)⟩,
   ⟨by decide, (c8_amended "ftp://x.com").2 (by decide)⟩⟩

/-! ## Claim C2 -/

/-- On an error-only report the renderer emits the fixed header, the
screenshot section, and then only the error section. -/
theorem report_error_items (e : String) (shot : Bool)
    (ai : Option (String → String → String)) :
    create_word_report [("Error", Value.str e)] shot ai =
      [.heading 0 "SEO Audit Report", .para "URL: N/A",
       .para "Analyzed URL (final): "] ++
      (if shot then [.heading 1 "Website Preview", .picture]
       else [.para "Note: Screenshot was not captured (Selenium may not be available or it failed)."]) ++
      [.heading 1 "Error", .para e] := by
  cases shot <;> rfl

/-- C2: a transport failure of the primary fetch produces the single-key
error dictionary whose error string is non-empty, and rendering that
report emits the error heading and the error text but none of the
per-check sections. -/
theorem c2_main (uj : String → String → String) (url : String) (doc : Doc)
    (o : Option Nat) (e : String) (shot : Bool)
    (ai : Option (String → String → String)) :
    (perform_seo_audit uj url (.failure e) doc o =
      [("Error", Value.str ("Could not access the website: " ++ e))]) ∧
    ("Could not access the website: " ++ e) ≠ "" ∧
    DocItem.heading 1 "Error" ∈
      create_word_report (perform_seo_audit uj url (.failure e) doc o) shot ai ∧
    DocItem.para ("Could not access the website: " ++ e) ∈
      create_word_report (perform_seo_audit uj url (.failure e) doc o) shot ai ∧
    ∀ hname ∈ checkSectionHeadings,
      DocItem.heading 1 hname ∉
        create_word_report (perform_seo_audit uj url (.failure e) doc o) shot ai := by
  have hd : perform_seo_audit uj url (.failure e) doc o =
      [("Error", Value.str ("Could not access the website: " ++ e))] := rfl
  refine ⟨hd, err_msg_ne_empty e, ?_, ?_, ?_⟩
  · rw [hd, report_error_items]
    cases shot <;> simp
  · rw [hd, report_error_items]
    cases shot <;> simp
  · intro hname hmem
    rw [hd, report_error_items]
    simp only [checkSectionHeadings, List.mem_cons, List.not_mem_nil, or_false] at hmem
    rcases hmem with rfl | rfl | rfl | rfl | rfl <;> cases shot <;> simp

/-- C2 witness: the no-section conjunct instantiated at a concrete failure
and the first per-check heading. -/
theorem c2_witness :
    ("Meta Title Audit" ∈ checkSectionHeadings) ∧
    DocItem.heading 1 "Meta Title Audit" ∉
      create_word_report
        (perform_seo_audit uj0 "example.com" (.failure "timeout") doc0 none)
        false none :=
  ⟨by decide,
   (c2_main uj0 "example.com" doc0 none "timeout" false none).2.2.2.2
     "Meta Title Audit" (by decide)⟩

/-! ## Claim C3 -/

theorem title_issue_audit (uj : String → String → String) (url : String)
    (resp : HttpResponse) (doc : Doc) (o : Option Nat) :
    title_issue (audit_success uj url resp doc o) =
      (if titleOf doc = "" ∨ titleOf doc = "❌ Missing" then "❌ Missing title tag."
       else if (titleOf doc).length < 50 then "⚠️ Title is too short (<50 chars)."
       else if (titleOf doc).length > 70 then "⚠️ Title is long (>70 chars)."
       else "✅ Looks good.") := by
  simp only [title_issue, dget_title, getNat_title_len]
  by_cases he : titleOf doc = ""
  · simp [he, pyTruthyO, pyTruthy]
  · by_cases hs : titleOf doc = "❌ Missing"
    · simp [he, hs, pyTruthyO, pyTruthy]
    · simp [he, hs, pyTruthyO, pyTruthy]

theorem md_issue_audit (uj : String → String → String) (url : String)
    (resp : HttpResponse) (doc : Doc) (o : Option Nat) :
    md_issue (audit_success uj url resp doc o) =
      (if metaDescOf doc = "" ∨ metaDescOf doc = "❌ Missing" then
        "❌ Missing meta description."
       else if (metaDescOf doc).length < 120 then "⚠️ Description is short (<120 chars)."
       else if (metaDescOf doc).length > 320 then "⚠️ Description is long (>320 chars)."
       else "✅ Looks good.") := by
  simp only [md_issue, getStr_md, getNat_md_len]
  by_cases he : metaDescOf doc = ""
  · simp [he]
  · by_cases hs : metaDescOf doc = "❌ Missing"
    · simp [he, hs]
    · simp [he, hs]

/-- C3 counterexample: a page whose actual title text is literally
`❌ Missing` (non-empty, length 9 below 50) is classified as Missing, not
Warning, because the audit stores the empty title and this literal title
identically. -/
theorem c3_counterexample :
    titleOf docSentinelTitle ≠ "" ∧
    (titleOf docSentinelTitle).length < 50 ∧
    title_issue (perform_seo_audit uj0 "example.com" (.response resp200)
      docSentinelTitle none) = "❌ Missing title tag." ∧
    "❌ Missing title tag." ≠ "⚠️ Title is too short (<50 chars)." := by decide

/-- C3 (amended): the Title verdict is Missing when the title text is empty
OR literally equals the sentinel `❌ Missing`; otherwise Warning exactly
when its length is below 50 or above 70 (so lengths 49 and 71 give Warning)
and Pass exactly when 50 ≤ length ≤ 70; the Meta Description verdict is the
same with the sentinel collision and thresholds 120 and 320. -/
theorem c3_amended (uj : String → String → String) (url : String)
    (resp : HttpResponse) (doc : Doc) (o : Option Nat)
    (h : raiseForStatusFails resp.status = false) :
    title_issue (perform_seo_audit uj url (.response resp) doc o) =
      (if titleOf doc = "" ∨ titleOf doc = "❌ Missing" then "❌ Missing title tag."
       else if (titleOf doc).length < 50 then "⚠️ Title is too short (<50 chars)."
       else if (titleOf doc).length > 70 then "⚠️ Title is long (>70 chars)."
       else "✅ Looks good.") ∧
    md_issue (perform_seo_audit uj url (.response resp) doc o) =
      (if metaDescOf doc = "" ∨ metaDescOf doc = "❌ Missing" then
        "❌ Missing meta description."
       else if (metaDescOf doc).length < 120 then "⚠️ Description is short (<120 chars)."
       else if (metaDescOf doc).length > 320 then "⚠️ Description is long (>320 chars)."
       else "✅ Looks good.") := by
  rw [perform_seo_audit_ok uj url resp doc o h]
  exact ⟨title_issue_audit uj (normalize_url url) resp doc o,
         md_issue_audit uj (normalize_url url) resp doc o⟩

/-- C3 witness: a 49-character title yields the short-title Warning and an
absent meta description yields Missing. -/
theorem c3_witness :
    raiseForStatusFails resp200.status = false ∧
    title_issue (perform_seo_audit uj0 "example.com" (.response resp200) doc49 none) =
      "⚠️ Title is too short (<50 chars)." ∧
    md_issue (perform_seo_audit uj0 "example.com" (.response resp200) doc49 none) =
      "❌ Missing meta description." :=
  ⟨by decide,
   (c3_amended uj0 "example.com" resp200 doc49 none (by decide)).1.trans
     (by decide),
   (c3_amended uj0 "example.com" resp200 doc49 none (by decide)).2.trans
     (by decide)⟩

/-! ## Claim C6 -/

/-- C6: the Noindex and Nofollow rows flag an issue exactly when the
directive is present in the robots meta content and report `OK` when it is
absent, while every other presence-style row (favicon, analytics, social,
search console, HTTPS, structured data, custom 404) reports `OK` exactly
when its signal is present — the inverted polarity. -/
theorem c6_main (uj : String → String → String) (url : String)
    (resp : HttpResponse) (doc : Doc) (o : Option Nat)
    (h : raiseForStatusFails resp.status = false) :
    noindex_issue (perform_seo_audit uj url (.response resp) doc o) =
      (if noindexOf doc then "Noindex present — page is hidden from search engines."
       else "OK") ∧
    nofollow_issue (perform_seo_audit uj url (.response resp) doc o) =
      (if nofollowOf doc then "Nofollow present — external links will not pass link equity."
       else "OK") ∧
    favicon_issue (perform_seo_audit uj url (.response resp) doc o) =
      (if faviconPresent doc then "OK" else "No favicon present.") ∧
    analytics_issue (perform_seo_audit uj url (.response resp) doc o) =
      (if analyticsPresent resp.text then "OK"
       else "Analytics not found — cannot track user behaviour.") ∧
    social_issue (perform_seo_audit uj url (.response resp) doc o) =
      (if socialPresent doc then "OK"
       else "Missing OpenGraph / Twitter tags affects social previews.") ∧
    gsc_issue (perform_seo_audit uj url (.response resp) doc o) =
      (if gscPresent doc then "OK" else "Site not verified in GSC.") ∧
    https_issue (perform_seo_audit uj url (.response resp) doc o) =
      (if startsWithS resp.url "https://" then "OK"
       else "Site not fully HTTPS / SSL issues.") ∧
    structured_issue (perform_seo_audit uj url (.response resp) doc o) =
      (if structuredCount doc > 0 then "OK" else "No structured data found.") ∧
    custom404_issue (perform_seo_audit uj url (.response resp) doc o) =
      (if custom404Of o then "OK" else "No custom 404 found.") := by
  rw [perform_seo_audit_ok uj url resp doc o h]
  refine ⟨?_, ?_, ?_, ?_, ?_, ?_, ?_, ?_, ?_⟩
  · simp only [noindex_issue, adv_noindex]
    cases noindexOf doc <;> rfl
  · simp only [nofollow_issue, adv_nofollow]
    cases nofollowOf doc <;> rfl
  · simp only [favicon_issue, adv_favicon]
    cases faviconPresent doc <;> rfl
  · simp only [analytics_issue, adv_analytics]
    cases analyticsPresent resp.text <;> rfl
  · simp only [social_issue, adv_social]
    cases socialPresent doc <;> rfl
  · simp only [gsc_issue, adv_gsc]
    cases gscPresent doc <;> rfl
  · simp only [https_issue, adv_https]
    cases startsWithS resp.url "https://" <;> rfl
  · simp only [structured_issue, adv_structured]
    by_cases hst : structuredCount doc > 0
    · simp only [if_pos hst]; decide
    · simp only [if_neg hst]; decide
  · simp only [custom404_issue, adv_custom404]
    cases custom404Of o <;> rfl

/-- C6 witness: with a robots meta containing `noindex, nofollow` both
inverted rows are flagged; on the empty document both report `OK` while the
favicon row (normal polarity) is flagged. -/
theorem c6_witness :
    raiseForStatusFails resp200.status = false ∧
    noindex_issue (perform_seo_audit uj0 "example.com" (.response resp200)
        { doc0 with metas := [{ name := some "robots", property := none,
                                content := some "noindex, nofollow" }] } none) =
      "Noindex present — page is hidden from search engines." ∧
    noindex_issue (perform_seo_audit uj0 "example.com" (.response resp200) doc0 none) =
      "OK" ∧
    favicon_issue (perform_seo_audit uj0 "example.com" (.response resp200) doc0 none) =
      "No favicon present." :=
  ⟨by decide,
   (c6_main uj0 "example.com" resp200
     { doc0 with metas := [{ name := some "robots", property := none,
                             content := some "noindex, nofollow" }] } none
     (by decide)).1.trans (by decide),
   (c6_main uj0 "example.com" resp200 doc0 none (by decide)).1.trans (by decide),
   (c6_main uj0 "example.com" resp200 doc0 none (by decide)).2.2.1.trans (by decide)⟩

/-! ## Claim C7 -/

/-- C7: the Custom 404 observation is the passing one exactly when the
synthetic probe returned status exactly 404; an exception during the probe
(`none`) degrades only this observation to its failing value; and two runs
differing only in the probe outcome agree on every other key. -/
theorem c7_main (uj : String → String → String) (url : String)
    (resp : HttpResponse) (doc : Doc) (o o2 : Option Nat)
    (h : raiseForStatusFails resp.status = false) :
    (dget (perform_seo_audit uj url (.response resp) doc o) "Custom 404 Page" =
        some (.str "✅ Exists") ↔ o = some 404) ∧
    (dget (perform_seo_audit uj url (.response resp) doc none) "Custom 404 Page" =
        some (.str "❌ Not Found")) ∧
    ((perform_seo_audit uj url (.response resp) doc o).map Prod.fst =
      (perform_seo_audit uj url (.response resp) doc o2).map Prod.fst) ∧
    (∀ k, k ∈ (perform_seo_audit uj url (.response resp) doc o).map Prod.fst →
      k ≠ "Custom 404 Page" →
      dget (perform_seo_audit uj url (.response resp) doc o) k =
        dget (perform_seo_audit uj url (.response resp) doc o2) k) := by
  rw [perform_seo_audit_ok uj url resp doc o h,
      perform_seo_audit_ok uj url resp doc o2 h,
      perform_seo_audit_ok uj url resp doc none h]
  refine ⟨?_, rfl, rfl, ?_⟩
  · rw [dget_custom404, ← custom404Of_eq_true_iff]
    cases custom404Of o <;> decide
  · intro k hk hne
    rw [audit_success_keys] at hk
    simp only [auditKeys, List.mem_cons, List.not_mem_nil, or_false] at hk
    rcases hk with rfl | rfl | rfl | rfl | rfl | rfl | rfl | rfl | rfl | rfl | rfl |
      rfl | rfl | rfl | rfl | rfl | rfl | rfl | rfl | rfl | rfl
    all_goals first
      | rfl
      | exact absurd rfl hne

/-- C7 witness: a probe answering 200 scores as not having a custom 404, a
probe answering 404 scores as having one, and the Title key is unaffected
by the probe outcome. -/
theorem c7_witness :
    raiseForStatusFails resp200.status = false ∧
    (dget (perform_seo_audit uj0 "example.com" (.response resp200) doc0 (some 404))
        "Custom 404 Page" = some (.str "✅ Exists")) ∧
    ¬ (dget (perform_seo_audit uj0 "example.com" (.response resp200) doc0 (some 200))
        "Custom 404 Page" = some (.str "✅ Exists")) ∧
    dget (perform_seo_audit uj0 "example.com" (.response resp200) doc0 (some 200))
        "Title" =
      dget (perform_seo_audit uj0 "example.com" (.response resp200) doc0 (some 404))
        "Title" :=
  ⟨by decide,
   (c7_main uj0 "example.com" resp200 doc0 (some 404) none (by decide)).1.mpr rfl,
   fun hc => by
     have h2 := (c7_main uj0 "example.com" resp200 doc0 (some 200) none
       (by decide)).1.mp hc
     exact absurd h2 (by decide),
   (c7_main uj0 "example.com" resp200 doc0 (some 200) (some 404)
     (by decide)).2.2.2 "Title" (by decide) (by decide)⟩

/-! ## Claim C10 -/

/-- C10: a successful primary fetch always yields the same fixed 21-key
dictionary in the same order, a failed fetch yields exactly the single key
`Error`, and an absent title is stored as the sentinel under `Title` while
`Title Length` holds 0, the length of the actual empty title. -/
theorem c10_main (uj : String → String → String) (url : String)
    (resp : HttpResponse) (doc : Doc) (o : Option Nat) (e : String)
    (h : raiseForStatusFails resp.status = false) :
    ((perform_seo_audit uj url (.response resp) doc o).map Prod.fst = auditKeys) ∧
    ((perform_seo_audit uj url (.failure e) doc o).map Prod.fst = ["Error"]) ∧
    (doc.title = none →
      dget (perform_seo_audit uj url (.response resp) doc o) "Title" =
        some (.str "❌ Missing") ∧
      dget (perform_seo_audit uj url (.response resp) doc o) "Title Length" =
        some (.nat 0)) := by
  rw [perform_seo_audit_ok uj url resp doc o h]
  refine ⟨audit_success_keys uj (normalize_url url) resp doc o, rfl, fun ht => ⟨?_, ?_⟩⟩
  · rw [dget_title]
    simp [titleOf, ht]
  · rw [dget_title_len]
    simp [titleOf, ht]

/-- C10 witness: the key list and the empty-title length on a concrete
titleless page. -/
theorem c10_witness :
    raiseForStatusFails resp200.status = false ∧ doc0.title = none ∧
    (perform_seo_audit uj0 "example.com" (.response resp200) doc0 none).map
      Prod.fst = auditKeys ∧
    dget (perform_seo_audit uj0 "example.com" (.response resp200) doc0 none)
      "Title Length" = some (.nat 0) :=
  ⟨by decide, rfl,
   (c10_main uj0 "example.com" resp200 doc0 none "" (by decide)).1,
   ((c10_main uj0 "example.com" resp200 doc0 none "" (by decide)).2.2 rfl).2⟩

end Seo
